import Mathlib

/-!
Shallow embedding of the BuyerChina telegram bot.

Sources embedded here:
- src/main.py: is_real_order, notify_manager (retry loop), send_message error
  classification, get_file_type_info, and the POST /webhook handler.
- src/services/supplier_verification.py: SupplierInfo, the three mock supplier
  records, verify_supplier, get_risk_assessment.
- src/services/order_management.py and src/services/admin_service.py:
  OrderStatus, Order, the order store, update_order_status and the admin
  dashboard aggregation.

Python strings are modelled as Lean String values; the helpers below model the
Python primitives str.lower, str.strip, len, the substring operator in, and
startswith and endswith over the character list of the string.  Network sends
are modelled as a trace of send events; the outcome of each attempted
sendMessage HTTP call is an environment parameter (Nat → Option TgResp),
mirroring the fact that send_message returns either a parsed JSON response or
None on timeout and connection errors.  Money amounts (Python float) are
modelled as Rat; timestamps (datetime) as Int, since no claim depends on float
rounding or real dates.
-/

/-- Models Python str.lower for the Latin and Cyrillic alphabets, the only
scripts occurring in the keyword and key tables of this repository: ASCII
A-Z, Cyrillic А-Я and Ё are mapped to their lowercase forms, every other
character is unchanged. -/
def pyLowerChar (c : Char) : Char :=
  if c.toNat ≥ 65 ∧ c.toNat ≤ 90 then Char.ofNat (c.toNat + 32)
  else if c.toNat ≥ 0x410 ∧ c.toNat ≤ 0x42F then Char.ofNat (c.toNat + 32)
  else if c.toNat = 0x401 then Char.ofNat 0x451
  else c

/-- Models Python str.lower (character-wise, see pyLowerChar). -/
def pyLower (s : String) : String := String.mk (s.data.map pyLowerChar)

/-- Models Python str.strip(): drop whitespace from both ends. -/
def pyStrip (s : String) : String :=
  String.mk (((s.data.dropWhile Char.isWhitespace).reverse.dropWhile Char.isWhitespace).reverse)

/-- Models Python len() on a string: number of characters. -/
def pyLen (s : String) : Nat := s.data.length

/-- Contiguous-sublist test on character lists; the empty needle matches
everything, as with the Python in operator. -/
def isSubOf (n h : List Char) : Bool :=
  match h with
  | [] => n.isEmpty
  | _ :: t => n.isPrefixOf h || isSubOf n t

/-- Models the Python substring operator: needle in hay. -/
def pyIn (needle hay : String) : Bool := isSubOf needle.data hay.data

/-- Models Python str.startswith. -/
def pyStartsWith (s pre : String) : Bool := pre.data.isPrefixOf s.data

/-- Models Python str.endswith. -/
def pyEndsWith (s suffix : String) : Bool := List.isSuffixOf suffix.data s.data

/-! main.py lines 188-216: the order classifier. -/

/-- Keyword list of is_real_order, main.py lines 193-197. -/
def order_keywords : List String :=
  ["купить", "заказать", "найти", "нужно", "хочу", "ищу", "товар", "цена", "стоимость",
   "доставка", "китай", "алиэкспресс", "alibaba", "taobao", "1688", "dhgate",
   "сколько стоит", "где купить", "как заказать", "помогите найти", "помочь найти"]

/-- Exclude-phrase list of is_real_order, main.py lines 199-202. -/
def exclude_phrases : List String :=
  ["привет", "hello", "hi", "спасибо", "thanks", "ok", "да", "нет", "yes", "no",
   "хорошо", "понятно", "ясно", "ок", "окей", "okay"]

/-- Models the for-loop over order_keywords in is_real_order: true as soon as
some keyword is a substring of the text. -/
def keywordHit : List String → String → Bool
  | [], _ => false
  | k :: rest, t => if pyIn k t then true else keywordHit rest t

/-- Embeds is_real_order, main.py lines 188-216: reject empty and short
texts, reject exact exclude-phrase matches of the lowercased stripped text,
accept on a keyword hit, otherwise accept iff the stripped text is longer
than 20 characters. -/
def is_real_order (text : String) : Bool :=
  if text = "" ∨ pyLen (pyStrip text) < 5 then false
  else
    let text_lower := pyStrip (pyLower text)
    if exclude_phrases.contains text_lower then false
    else if keywordHit order_keywords text_lower then true
    else if pyLen (pyStrip text) > 20 then true
    else false

/-! main.py lines 97-303: sends and the manager notification retry loop. -/

/-- Parsed JSON response of a Telegram API call, as inspected by the code:
the ok flag and the optional error_code.  send_message returns None (no
response) on timeout and connection errors, hence Option TgResp below. -/
structure TgResp where
  ok : Bool
  error_code : Option Int
deriving DecidableEq

/-- Kind of an outbound Telegram API send call. -/
inductive SendKind
  | sendMessage
  | sendPhoto
  | sendDocument
deriving DecidableEq, BEq

/-- One outbound send call: destination chat id and which endpoint. -/
structure SendEvent where
  chat : Int
  kind : SendKind
deriving DecidableEq, BEq

/-- Value of the message_type argument of notify_manager. -/
inductive MsgType
  | text
  | photo
  | document
deriving DecidableEq, BEq

/-- Embeds the retry loop of notify_manager, main.py lines 256-281:
for attempt in range(max_attempts): send; on ok success break with True;
on error_code 403 or 400 break with False; otherwise sleep and retry; when
the loop ends without success the result is False.  The second component is
the trace of sendMessage calls made to the manager chat.  Structural
recursion on the remaining number of iterations. -/
def notifyLoop (mgr : Int) (outcomes : Nat → Option TgResp) : Nat → Nat → Bool × List SendEvent
  | _, 0 => (false, [])
  | attempt, Nat.succ rem =>
    let ev : SendEvent := SendEvent.mk mgr SendKind.sendMessage
    match outcomes attempt with
    | some r =>
      if r.ok then (true, [ev])
      else if r.error_code == some 403 then (false, [ev])
      else if r.error_code == some 400 then (false, [ev])
      else
        let rest := notifyLoop mgr outcomes (attempt + 1) rem
        (rest.1, ev :: rest.2)
    | none =>
      let rest := notifyLoop mgr outcomes (attempt + 1) rem
      (rest.1, ev :: rest.2)

/-- Truthiness of an optional Python string: None and the empty string are
falsy. -/
def optStrTruthy (o : Option String) : Bool :=
  match o with
  | none => false
  | some s => !(s == "")

/-- Embeds notify_manager, main.py lines 218-303: run the retry loop with
max_attempts = 3, then, if the notification was sent and a truthy file_id
was given for a photo or document request, forward the file to the manager
with one sendPhoto or sendDocument call.  Returns notification_sent and the
trace of sends.  The notification text (lines 223-253) is built from the
user fields and does not influence control flow, so it is not modelled. -/
def notify_manager (mgr : Int) (outcomes : Nat → Option TgResp)
    (message_type : MsgType) (file_id : Option String) : Bool × List SendEvent :=
  let r := notifyLoop mgr outcomes 0 3
  let fileEvents :=
    if r.1 && optStrTruthy file_id && ([MsgType.photo, MsgType.document].contains message_type) then
      [SendEvent.mk mgr (if message_type == MsgType.photo then SendKind.sendPhoto else SendKind.sendDocument)]
    else []
  (r.1, r.2 ++ fileEvents)

/-- Number of sendMessage calls in a notify_manager result, i.e. the number
of delivery attempts made. -/
def msgSendCount (r : Bool × List SendEvent) : Nat :=
  (r.2.filter (fun e => e.kind == SendKind.sendMessage)).length

/-- Sends whose outcome is a failure: no response at all, or a response with
ok false. -/
def sendFails (o : Option TgResp) : Prop := ∀ r, o = some r → r.ok = false

/-- Sends whose response carries the given error code. -/
def hasErrCode (o : Option TgResp) (c : Int) : Prop := ∃ r, o = some r ∧ r.error_code = some c

/-! main.py lines 67-95: file type detection. -/

/-- Embeds get_file_type_info, main.py lines 67-95: classify a file name by
its lowercased extension into a type tag and a human description. -/
def get_file_type_info (file_name : String) : String × String :=
  if file_name = "" then ("unknown", "Неизвестный файл")
  else
    let file_name_lower := pyLower file_name
    if [".jpg", ".jpeg", ".png", ".gif", ".bmp", ".webp"].any (fun e => pyEndsWith file_name_lower e) then
      ("photo", "📸 Изображение")
    else if [".xlsx", ".xls", ".xlsm"].any (fun e => pyEndsWith file_name_lower e) then
      ("excel", "📊 Excel таблица")
    else if pyEndsWith file_name_lower ".pdf" then
      ("pdf", "📄 PDF документ")
    else if [".docx", ".doc"].any (fun e => pyEndsWith file_name_lower e) then
      ("word", "📝 Word документ")
    else if [".txt", ".rtf"].any (fun e => pyEndsWith file_name_lower e) then
      ("document", "📄 Текстовый документ")
    else ("other", "📎 Файл")

/-- Supported document types in the webhook document branch, main.py line 603. -/
def supported_types : List String := ["excel", "pdf", "word", "document"]

/-! main.py lines 528-678: the webhook handler, over raw Telegram updates. -/

/-- Raw chat object of an update; the id key may be absent, in which case
message[chat][id] raises KeyError. -/
structure RawChat where
  id : Option Int
deriving DecidableEq

/-- Raw user object; all fields are read with .get and therefore optional.
The Python key is named from; renamed here because from is a Lean keyword. -/
structure RawUser where
  id : Option Int
  first_name : Option String
  username : Option String
deriving DecidableEq

/-- One photo size entry of a photo message. -/
structure PhotoSize where
  file_id : String
  file_size : Option Int
deriving DecidableEq

/-- Raw document object; file_id is read with direct indexing and raises
KeyError when absent, file_name and file_size are read with .get. -/
structure RawDocument where
  file_id : Option String
  file_name : Option String
  file_size : Option Int
deriving DecidableEq

/-- Raw message object of an update: each branch key may be present or not. -/
structure RawMessage where
  chat : Option RawChat
  from_user : Option RawUser
  text : Option String
  photo : Option (List PhotoSize)
  document : Option RawDocument
deriving DecidableEq

/-- Raw update object: the message key may be absent. -/
structure RawUpdate where
  message : Option RawMessage
deriving DecidableEq

/-- Direct dictionary indexing: raises KeyError when the key is absent. -/
def keyErr {α : Type} (o : Option α) (k : String) : Except String α :=
  match o with
  | some a => Except.ok a
  | none => Except.error ("KeyError: " ++ k)

/-- Models max(photos, key=lambda x: x.get(file_size, 0)) on a non-empty
list: Python max keeps the first element among those with the maximal key. -/
def largestPhoto (p : PhotoSize) (ps : List PhotoSize) : PhotoSize :=
  ps.foldl (fun best x => if x.file_size.getD 0 > best.file_size.getD 0 then x else best) p

/-- Embeds the body of the webhook handler, main.py lines 543-674, for an
update that contains a message: extract chat id (this can raise), then
branch on /start, photo, document, text in that order, performing the
notification and reply sends of each branch.  Errors model the uncaught
Python exceptions of the body (missing keys, max() on an empty photo list).
Returns the trace of sends together with the HTTP response body and code. -/
def webhookBody (mgr : Int) (outcomes : Nat → Option TgResp) (msg : RawMessage) :
    Except String (List SendEvent × String × Nat) :=
  match keyErr msg.chat "chat" with
  | Except.error e => Except.error e
  | Except.ok chat =>
    match keyErr chat.id "id" with
    | Except.error e => Except.error e
    | Except.ok chat_id =>
      if msg.text == some "/start" then
        Except.ok ([SendEvent.mk chat_id SendKind.sendMessage], ("OK", 200))
      else if msg.photo.isSome then
        match msg.photo with
        | none => Except.error "KeyError: photo"
        | some [] => Except.error "ValueError: max() arg is an empty sequence"
        | some (p :: ps) =>
          let lp := largestPhoto p ps
          let n := notify_manager mgr outcomes MsgType.photo (some lp.file_id)
          Except.ok (n.2 ++ [SendEvent.mk chat_id SendKind.sendMessage], ("OK", 200))
      else if msg.document.isSome then
        match msg.document with
        | none => Except.error "KeyError: document"
        | some doc =>
          let file_name := doc.file_name.getD "Без названия"
          match keyErr doc.file_id "file_id" with
          | Except.error e => Except.error e
          | Except.ok file_id =>
            if !(supported_types.contains (get_file_type_info file_name).1) then
              Except.ok ([SendEvent.mk chat_id SendKind.sendMessage], ("OK", 200))
            else
              let n := notify_manager mgr outcomes MsgType.document (some file_id)
              Except.ok (n.2 ++ [SendEvent.mk chat_id SendKind.sendMessage], ("OK", 200))
      else
        match msg.text with
        | some t =>
          if pyStartsWith t "/" then Except.ok ([], ("OK", 200))
          else if is_real_order t then
            let n := notify_manager mgr outcomes MsgType.text none
            Except.ok (n.2 ++ [SendEvent.mk chat_id SendKind.sendMessage], ("OK", 200))
          else
            Except.ok ([SendEvent.mk chat_id SendKind.sendMessage], ("OK", 200))
        | none => Except.ok ([], ("OK", 200))

/-- Embeds the POST /webhook route, main.py lines 528-678: an empty or null
JSON body answers No data with 400; an update without a message answers OK;
otherwise the body runs under the blanket try/except which maps any raised
exception to Error with 500.  All modelled exception sites precede the first
send of their branch, so the trace is empty on the error path. -/
def webhook (mgr : Int) (outcomes : Nat → Option TgResp) (data : Option RawUpdate) :
    List SendEvent × String × Nat :=
  match data with
  | none => ([], ("No data", 400))
  | some upd =>
    match upd.message with
    | none => ([], ("OK", 200))
    | some msg =>
      match webhookBody mgr outcomes msg with
      | Except.ok r => r
      | Except.error _ => ([], ("Error", 500))

/-- Branches of the webhook handler that reply to the originating chat:
/start, photo, document, or a text that is not a slash command. -/
def repliedBranch (msg : RawMessage) : Bool :=
  msg.text == some "/start" || msg.photo.isSome || msg.document.isSome ||
    (match msg.text with
     | some t => !pyStartsWith t "/"
     | none => false)

/-- Number of sends the webhook makes to the chat c for the given update. -/
def replyCountTo (mgr : Int) (outcomes : Nat → Option TgResp) (data : Option RawUpdate) (c : Int) : Nat :=
  ((webhook mgr outcomes data).1.filter (fun e => e.chat == c)).length

/-! src/services/supplier_verification.py -/

/-- Supplier record, supplier_verification.py lines 6-17.  contact_info is a
string-to-string dictionary, modelled as an association list. -/
structure SupplierInfo where
  company_name : String
  registration_status : String
  business_license : String
  years_in_business : Nat
  location : String
  main_products : String
  certifications : List String
  risk_level : String
  verification_score : Int
  contact_info : List (String × String)
deriving DecidableEq

/-- First mock record, supplier_verification.py lines 22-37. -/
def shenzhen_supplier : SupplierInfo :=
  SupplierInfo.mk "Shenzhen Audio Tech Co., Ltd" "‚úÖ Verified" "91440300MA5DC9XU8K" 8
    "Shenzhen, Guangdong Province" "Audio equipment, headphones, speakers"
    ["ISO 9001", "CE", "FCC", "RoHS"] "üü¢ Low Risk" 92
    [("email", "sales@szaudiotech.com"), ("phone", "+86-755-8888-9999"), ("website", "www.szaudiotech.com")]

/-- Second mock record, supplier_verification.py lines 38-53. -/
def guangzhou_supplier : SupplierInfo :=
  SupplierInfo.mk "Guangzhou Cable Manufacturing Ltd" "‚úÖ Verified" "91440101MA5EF2RT7P" 12
    "Guangzhou, Guangdong Province" "USB cables, charging cables, data cables"
    ["ISO 9001", "CE", "UL", "MFi"] "üü¢ Low Risk" 88
    [("email", "info@gzcable.com"), ("phone", "+86-20-1234-5678"), ("website", "www.gzcable.com")]

/-- Third mock record, supplier_verification.py lines 54-69. -/
def dongguan_supplier : SupplierInfo :=
  SupplierInfo.mk "Dongguan Plastic Industries Co." "‚ö†Ô∏è Pending Verification" "91441900MA4WK8XL2N" 5
    "Dongguan, Guangdong Province" "Phone cases, plastic accessories"
    ["ISO 9001", "CE"] "üü° Medium Risk" 75
    [("email", "sales@dgplastic.cn"), ("phone", "+86-769-8765-4321"), ("website", "www.dgplastic.cn")]

/-- Test fixture: a supplier record with verification score 50, exercising
the high-risk branch of get_risk_assessment. -/
def score50_supplier : SupplierInfo :=
  SupplierInfo.mk "Test Trading Co." "‚ö†Ô∏è Pending Verification" "000000000000000000" 1
    "Shenzhen, Guangdong Province" "Misc"
    [] "üü° Medium Risk" 50
    [("email", "test@example.com")]

/-- The mock_suppliers dictionary in insertion order, supplier_verification.py
lines 21-70. -/
def mock_suppliers : List (String × SupplierInfo) :=
  [("shenzhen audio tech co", shenzhen_supplier),
   ("guangzhou cable manufacturing", guangzhou_supplier),
   ("dongguan plastic industries", dongguan_supplier)]

/-- Embeds verify_supplier, supplier_verification.py lines 72-85: lowercase
and strip the query, return the exact-key match if any, otherwise the first
record whose key contains the query or is contained in it, otherwise none. -/
def verify_supplier (company_name : String) : Option SupplierInfo :=
  let company_key := pyStrip (pyLower company_name)
  match mock_suppliers.find? (fun p => p.1 == company_key) with
  | some p => some p.2
  | none =>
    match mock_suppliers.find? (fun p => pyIn company_key p.1 || pyIn p.1 company_key) with
    | some p => some p.2
    | none => none

/-- Header of the risk assessment (language_service absent), followed by the
blank line, supplier_verification.py lines 129-131. -/
def risk_header (supplier : SupplierInfo) : String :=
  "üîç **Risk Assessment for " ++ supplier.company_name ++ "**" ++ "\n\n"

/-- Prose block of the recommended branch, supplier_verification.py lines 137-141. -/
def recommended_block : String :=
  "‚úÖ **Recommended Supplier**" ++ "\n" ++
  "‚Ä¢ High verification score\n" ++
  "‚Ä¢ Strong business credentials\n" ++
  "‚Ä¢ Low risk for business partnership\n"

/-- Prose block of the caution branch, supplier_verification.py lines 146-150. -/
def caution_block : String :=
  "‚ö†Ô∏è **Proceed with Caution**" ++ "\n" ++
  "‚Ä¢ Moderate verification score\n" ++
  "‚Ä¢ Additional due diligence recommended\n" ++
  "‚Ä¢ Consider requesting additional documentation\n"

/-- Prose block of the high-risk branch, supplier_verification.py lines 155-159. -/
def high_risk_block : String :=
  "‚ùå **High Risk - Not Recommended**" ++ "\n" ++
  "‚Ä¢ Low verification score\n" ++
  "‚Ä¢ Significant risk factors identified\n" ++
  "‚Ä¢ Recommend finding alternative suppliers\n"

/-- Embeds get_risk_assessment for the default language path,
supplier_verification.py lines 124-161: header plus one of three prose
blocks selected by the stored verification score (the language_service
branch only swaps localized titles and is not modelled). -/
def get_risk_assessment (supplier : SupplierInfo) : String :=
  if supplier.verification_score ≥ 85 then risk_header supplier ++ recommended_block
  else if supplier.verification_score ≥ 70 then risk_header supplier ++ caution_block
  else risk_header supplier ++ high_risk_block

/-! src/services/order_management.py and src/services/admin_service.py -/

/-- Order status enum, order_management.py lines 6-12. -/
inductive OrderStatus
  | pending
  | confirmed
  | production
  | shipped
  | delivered
  | cancelled
deriving DecidableEq, BEq

/-- Order item record, order_management.py lines 14-19. -/
structure OrderItem where
  product_name : String
  quantity : Nat
  unit_price : Rat
  total_price : Rat
deriving DecidableEq

/-- Order record, order_management.py lines 21-32. -/
structure Order where
  order_id : String
  user_id : Int
  items : List OrderItem
  supplier : String
  status : OrderStatus
  created_date : Int
  estimated_delivery : Int
  total_amount : Rat
  tracking_number : Option String
  notes : String
deriving DecidableEq

/-- State of an OrderManagementService: the orders dictionary keyed by order
id in insertion order, and the user_orders dictionary mapping a user id to
the list of order ids of that user, order_management.py lines 36-37. -/
structure OMSState where
  orders : List (String × Order)
  user_orders : List (Int × List String)
deriving DecidableEq

/-- Embeds get_order, order_management.py lines 101-103. -/
def get_order (s : OMSState) (order_id : String) : Option Order :=
  (s.orders.find? (fun p => p.1 == order_id)).map (fun p => p.2)

/-- Replaces the status of an order, leaving all other fields unchanged
(the in-place assignment at order_management.py line 110). -/
def setStatus (o : Order) (st : OrderStatus) : Order :=
  Order.mk o.order_id o.user_id o.items o.supplier st o.created_date
    o.estimated_delivery o.total_amount o.tracking_number o.notes

/-- Replaces the tracking number of an order (the in-place assignment at
order_management.py line 112). -/
def setTracking (o : Order) (t : String) : Order :=
  Order.mk o.order_id o.user_id o.items o.supplier o.status o.created_date
    o.estimated_delivery o.total_amount (some t) o.notes

/-- Value bound to the google_sheets_service parameter of
OrderManagementService.update_order_status.  Python is dynamically typed:
the intended values are None or a sheets service object, but
AdminService.update_order_status passes its tracking_number string into this
position, so a string can land here as well. -/
inductive GssArg
  | pyNone
  | pyStr (s : String)
  | svc (connected : Bool)
deriving DecidableEq

/-- Python truthiness of a google_sheets_service argument: None and the
empty string are falsy, everything else is truthy. -/
def gssTruthy : GssArg → Bool
  | GssArg.pyNone => false
  | GssArg.pyStr s => !(s == "")
  | GssArg.svc _ => true

/-- Calling .is_connected() on the argument: a service object answers its
flag, a string has no such attribute and raises AttributeError. -/
def gssIsConnected : GssArg → Except String Bool
  | GssArg.pyNone => Except.error "AttributeError: NoneType object has no attribute is_connected"
  | GssArg.pyStr _ => Except.error "AttributeError: str object has no attribute is_connected"
  | GssArg.svc c => Except.ok c

/-- Embeds OrderManagementService.update_order_status, order_management.py
lines 105-118: unknown order ids answer False; otherwise the status is
updated in place, a truthy tracking_number is stored, and if the
google_sheets_service argument is truthy its is_connected() is called (which
raises for a string) before the best-effort sync.  Returns the updated state
and either the boolean result or the raised exception. -/
def oms_update_order_status (s : OMSState) (order_id : String) (status : OrderStatus)
    (google_sheets_service : GssArg) (tracking_number : Option String) :
    OMSState × Except String Bool :=
  if !(s.orders.any (fun p => p.1 == order_id)) then (s, Except.ok false)
  else
    let s1 := OMSState.mk
      (s.orders.map (fun p => if p.1 == order_id then (p.1, setStatus p.2 status) else p))
      s.user_orders
    let s2 :=
      if optStrTruthy tracking_number then
        OMSState.mk
          (s1.orders.map (fun p =>
            if p.1 == order_id then (p.1, setTracking p.2 (tracking_number.getD "")) else p))
          s1.user_orders
      else s1
    if gssTruthy google_sheets_service then
      match gssIsConnected google_sheets_service with
      | Except.error e => (s2, Except.error e)
      | Except.ok _ => (s2, Except.ok true)
    else (s2, Except.ok true)

/-- Embeds AdminService.update_order_status, admin_service.py lines 162-164:
the call forwards order_id, new_status and tracking_number positionally, so
tracking_number lands in the google_sheets_service parameter of
OrderManagementService.update_order_status and its own tracking_number
parameter keeps the default None. -/
def admin_update_order_status (s : OMSState) (order_id : String) (new_status : OrderStatus)
    (tracking_number : Option String) : OMSState × Except String Bool :=
  oms_update_order_status s order_id new_status
    (match tracking_number with
     | none => GssArg.pyNone
     | some t => GssArg.pyStr t)
    none

/-- Embeds AdminService.get_all_orders, admin_service.py lines 52-60: walk
the id lists of user_orders, look each id up in the order store, keep the
hits, and sort by creation date, newest first (Python sorted with
reverse=True is stable, as is mergeSort with the flipped comparison). -/
def get_all_orders (s : OMSState) : List Order :=
  (((s.user_orders.map (fun p => p.2)).flatten).filterMap (fun order_id => get_order s order_id)).mergeSort
    (fun a b => b.created_date ≤ a.created_date)

/-- Status tally of the dashboard, admin_service.py lines 72-74. -/
def status_counts (all_orders : List Order) (st : OrderStatus) : Nat :=
  (all_orders.filter (fun o => o.status == st)).length

/-- Embeds the aggregation of AdminService.format_admin_dashboard,
admin_service.py lines 67-117: the total order count, the per-status counts
and the dollar total that the dashboard message interpolates (the
surrounding fixed-format text only renders these three quantities). -/
def format_admin_dashboard_stats (s : OMSState) : Nat × (OrderStatus → Nat) × Rat :=
  let all_orders := get_all_orders s
  (all_orders.length, fun st => status_counts all_orders st,
    (all_orders.map (fun o => o.total_amount)).sum)

/-- Test fixture: a consistent order store holding two pending orders and
one shipped order, across two users. -/
def sample_state : OMSState :=
  OMSState.mk
    [("A", Order.mk "A" 1 [] "S1" OrderStatus.pending 3 10 100 none ""),
     ("B", Order.mk "B" 1 [] "S2" OrderStatus.pending 1 10 250 none ""),
     ("C", Order.mk "C" 2 [] "S3" OrderStatus.shipped 2 12 50 none "")]
    [(1, ["A", "B"]), (2, ["C"])]

/-- State seeded by _create_mock_orders, order_management.py lines 42-63:
one production order of user 123456789.  Its timestamps (now minus 5 days,
now plus 10 days) are modelled as day offsets from the creation instant. -/
def mock_state : OMSState :=
  OMSState.mk
    [("ORD-2024-001",
      Order.mk "ORD-2024-001" 123456789
        [OrderItem.mk "Wireless Bluetooth Headphones" 500 (21/2) 5250,
         OrderItem.mk "USB-C Cable 1m" 1000 1 1000]
        "Shenzhen Audio Tech Co." OrderStatus.production (-5) 10 6250
        (some "SF1234567890") "Rush order for electronics store")]
    [(123456789, ["ORD-2024-001"])]
theorem keywordHit_eq_any (l : List String) (t : String) :
    keywordHit l t = l.any (fun k => pyIn k t) := by
  induction l with
  | nil => rfl
  | cons k rest ih =>
    by_cases h : pyIn k t <;> simp [keywordHit, h, ih]

/-- C1: for every input string s, is_real_order returns false when s is empty
or its stripped length is below 5, or when its lowercased stripped form is an
exact member of the exclude-phrase list; otherwise it returns true when some
order keyword is a substring of the lowercased stripped form; otherwise it
returns true exactly when the stripped length exceeds 20.  In particular the
6-character message abcdef with no keyword and no exclude match is rejected. -/
theorem C1_is_real_order_rule :
    (∀ s : String,
      is_real_order s =
        if s = "" ∨ pyLen (pyStrip s) < 5 then false
        else if pyStrip (pyLower s) ∈ exclude_phrases then false
        else if order_keywords.any (fun k => pyIn k (pyStrip (pyLower s))) then true
        else decide (pyLen (pyStrip s) > 20)) ∧
    is_real_order "abcdef" = false := by
  constructor
  · intro s
    by_cases h1 : s = "" ∨ pyLen (pyStrip s) < 5
    · simp [is_real_order, h1]
    · by_cases h2 : pyStrip (pyLower s) ∈ exclude_phrases
      · have h2c : exclude_phrases.contains (pyStrip (pyLower s)) = true := by
          simpa [List.contains] using (List.elem_iff.mpr h2)
        simp [is_real_order, h1, h2, h2c]
      · have h2c : exclude_phrases.contains (pyStrip (pyLower s)) = false := by
          rw [Bool.eq_false_iff]
          intro hc
          exact h2 (List.elem_iff.mp (by simpa [List.contains] using hc))
        by_cases h3 : order_keywords.any (fun k => pyIn k (pyStrip (pyLower s))) = true
        · simp [is_real_order, h1, h2, h2c, keywordHit_eq_any, h3]
        · by_cases h4 : pyLen (pyStrip s) > 20 <;>
            simp [is_real_order, h1, h2, h2c, keywordHit_eq_any, h3, h4]
  · decide
/-- C6: supplier lookup is case-insensitive and substring-tolerant over the
three static records: the queries Shenzhen Audio and shenzhen audio tech co
both resolve to the Shenzhen Audio Tech Co., Ltd record, and unknown co is
not found. -/
theorem C6_verify_supplier_examples :
    verify_supplier "Shenzhen Audio" = some shenzhen_supplier ∧
    verify_supplier "shenzhen audio tech co" = some shenzhen_supplier ∧
    shenzhen_supplier.company_name = "Shenzhen Audio Tech Co., Ltd" ∧
    verify_supplier "unknown co" = none := by decide

/-- C7: risk assessment is a pure step function of the stored verification
score: at least 85 yields the Recommended Supplier block, between 70 and 84
the Proceed with Caution block, below 70 the High Risk block; the boundaries
85 and 70 are inclusive on the upper branch, and the concrete scores 92, 75
and 50 select recommended, caution and high risk respectively. -/
theorem C7_risk_assessment_step :
    (∀ sup : SupplierInfo,
      (85 ≤ sup.verification_score →
        get_risk_assessment sup = risk_header sup ++ recommended_block) ∧
      (70 ≤ sup.verification_score → sup.verification_score < 85 →
        get_risk_assessment sup = risk_header sup ++ caution_block) ∧
      (sup.verification_score < 70 →
        get_risk_assessment sup = risk_header sup ++ high_risk_block)) ∧
    shenzhen_supplier.verification_score = 92 ∧
    get_risk_assessment shenzhen_supplier = risk_header shenzhen_supplier ++ recommended_block ∧
    dongguan_supplier.verification_score = 75 ∧
    get_risk_assessment dongguan_supplier = risk_header dongguan_supplier ++ caution_block ∧
    score50_supplier.verification_score = 50 ∧
    get_risk_assessment score50_supplier = risk_header score50_supplier ++ high_risk_block := by
  refine ⟨?_, rfl, rfl, rfl, rfl, rfl, rfl⟩
  intro sup
  refine ⟨?_, ?_, ?_⟩
  · intro h85
    simp [get_risk_assessment, h85, ge_iff_le]
  · intro h70 h85
    have : ¬ (85 ≤ sup.verification_score) := by omega
    simp [get_risk_assessment, this, h70, ge_iff_le]
  · intro h70
    have h1 : ¬ (85 ≤ sup.verification_score) := by omega
    have h2 : ¬ (70 ≤ sup.verification_score) := by omega
    simp [get_risk_assessment, h1, h2, ge_iff_le]

/-- C7 witness: the caution branch applied at the Dongguan record, whose
score 75 lies in the 70 to 84 band. -/
theorem C7_witness :
    70 ≤ dongguan_supplier.verification_score ∧
    dongguan_supplier.verification_score < 85 ∧
    get_risk_assessment dongguan_supplier = risk_header dongguan_supplier ++ caution_block :=
  ⟨by decide, by decide, (C7_risk_assessment_step.1 dongguan_supplier).2.1 (by decide) (by decide)⟩

/-- C10: any query whose lowercased stripped form is a substring of some
stored supplier key resolves to a stored record rather than none; in
particular the empty query and a whitespace-only query both return the first
mock record. -/
theorem C10_vacuous_substring_match :
    (∀ q : String,
      (∃ p ∈ mock_suppliers, pyIn (pyStrip (pyLower q)) p.1 = true) →
      ∃ p ∈ mock_suppliers, verify_supplier q = some p.2) ∧
    verify_supplier "" = some shenzhen_supplier ∧
    verify_supplier "   " = some shenzhen_supplier := by
  refine ⟨?_, by decide, by decide⟩
  intro q hq
  obtain ⟨p, hp, hin⟩ := hq
  have hdef : verify_supplier q =
      match mock_suppliers.find? (fun r => r.1 == pyStrip (pyLower q)) with
      | some r => some r.2
      | none =>
        match mock_suppliers.find?
            (fun r => pyIn (pyStrip (pyLower q)) r.1 || pyIn r.1 (pyStrip (pyLower q))) with
        | some r => some r.2
        | none => none := rfl
  cases h1 : mock_suppliers.find? (fun r => r.1 == pyStrip (pyLower q)) with
  | some r =>
    refine ⟨r, List.mem_of_find?_eq_some h1, ?_⟩
    rw [hdef, h1]
  | none =>
    cases h2 : mock_suppliers.find?
        (fun r => pyIn (pyStrip (pyLower q)) r.1 || pyIn r.1 (pyStrip (pyLower q))) with
    | some r =>
      refine ⟨r, List.mem_of_find?_eq_some h2, ?_⟩
      rw [hdef, h1, h2]
    | none =>
      exfalso
      have hall := List.find?_eq_none.mp h2 p hp
      simp [hin] at hall

/-- C10 witness: the query audio tech, a substring of the first key, resolves
to a stored record. -/
theorem C10_witness :
    ∃ p ∈ mock_suppliers, verify_supplier "audio tech" = some p.2 :=
  C10_vacuous_substring_match.1 "audio tech"
    ⟨("shenzhen audio tech co", shenzhen_supplier), by decide, by decide⟩
theorem notifyLoop_all_msg (mgr : Int) (outcomes : Nat → Option TgResp) :
    ∀ f a, ∀ e ∈ (notifyLoop mgr outcomes a f).2, e = SendEvent.mk mgr SendKind.sendMessage := by
  intro f
  induction f with
  | zero => intro a e he; simp [notifyLoop] at he
  | succ rem ih =>
    intro a e he
    cases ho : outcomes a with
    | none =>
      simp only [notifyLoop, ho] at he
      rcases List.mem_cons.mp he with h | h
      · exact h
      · exact ih (a + 1) e h
    | some r =>
      by_cases hok : r.ok
      · simp [notifyLoop, ho, hok] at he
        exact he
      · by_cases h403 : r.error_code == some 403
        · simp [notifyLoop, ho, hok, h403] at he
          exact he
        · by_cases h400 : r.error_code == some 400
          · simp [notifyLoop, ho, hok, h403, h400] at he
            exact he
          · simp only [notifyLoop, ho, hok, h403, h400, Bool.false_eq_true, if_false] at he
            rcases List.mem_cons.mp he with h | h
            · exact h
            · exact ih (a + 1) e h

theorem notifyLoop_length_le (mgr : Int) (outcomes : Nat → Option TgResp) :
    ∀ f a, ((notifyLoop mgr outcomes a f).2).length ≤ f := by
  intro f
  induction f with
  | zero => intro a; simp [notifyLoop]
  | succ rem ih =>
    intro a
    cases ho : outcomes a with
    | none =>
      simp only [notifyLoop, ho, List.length_cons]
      exact Nat.succ_le_succ (ih (a + 1))
    | some r =>
      by_cases hok : r.ok
      · simp [notifyLoop, ho, hok]
      · by_cases h403 : r.error_code == some 403
        · simp [notifyLoop, ho, hok, h403]
        · by_cases h400 : r.error_code == some 400
          · simp [notifyLoop, ho, hok, h403, h400]
          · simp only [notifyLoop, ho, hok, h403, h400, Bool.false_eq_true, if_false,
              List.length_cons]
            exact Nat.succ_le_succ (ih (a + 1))

theorem notifyLoop_fail_result (mgr : Int) (outcomes : Nat → Option TgResp)
    (hfail : ∀ n, sendFails (outcomes n)) :
    ∀ f a, (notifyLoop mgr outcomes a f).1 = false := by
  intro f
  induction f with
  | zero => intro a; simp [notifyLoop]
  | succ rem ih =>
    intro a
    cases ho : outcomes a with
    | none => simp only [notifyLoop, ho]; exact ih (a + 1)
    | some r =>
      have hok : r.ok = false := hfail a r ho
      by_cases h403 : r.error_code == some 403
      · simp [notifyLoop, ho, hok, h403]
      · by_cases h400 : r.error_code == some 400
        · simp [notifyLoop, ho, hok, h403, h400]
        · simp only [notifyLoop, ho, hok, h403, h400, Bool.false_eq_true, if_false]
          exact ih (a + 1)

theorem notifyLoop_full_length (mgr : Int) (outcomes : Nat → Option TgResp)
    (hfail : ∀ n, sendFails (outcomes n)) :
    ∀ f a, (∀ n, n < a + f → ¬ hasErrCode (outcomes n) 403 ∧ ¬ hasErrCode (outcomes n) 400) →
      ((notifyLoop mgr outcomes a f).2).length = f := by
  intro f
  induction f with
  | zero => intro a _; simp [notifyLoop]
  | succ rem ih =>
    intro a h
    cases ho : outcomes a with
    | none =>
      simp only [notifyLoop, ho, List.length_cons]
      rw [ih (a + 1) (fun n hn => h n (by omega))]
    | some r =>
      have hok : r.ok = false := hfail a r ho
      have h403 : (r.error_code == some (403 : Int)) = false := by
        rw [beq_eq_false_iff_ne]
        intro hc
        exact (h a (by omega)).1 ⟨r, ho, hc⟩
      have h400 : (r.error_code == some (400 : Int)) = false := by
        rw [beq_eq_false_iff_ne]
        intro hc
        exact (h a (by omega)).2 ⟨r, ho, hc⟩
      simp only [notifyLoop, ho, hok, h403, h400, Bool.false_eq_true, if_false,
        List.length_cons]
      rw [ih (a + 1) (fun n hn => h n (by omega))]

theorem msgSendCount_of_loop (mgr : Int) (outcomes : Nat → Option TgResp)
    (mt : MsgType) (fid : Option String) :
    msgSendCount (notify_manager mgr outcomes mt fid) = ((notifyLoop mgr outcomes 0 3).2).length := by
  have hfilter : (notifyLoop mgr outcomes 0 3).2.filter (fun e => e.kind == SendKind.sendMessage)
      = (notifyLoop mgr outcomes 0 3).2 := by
    apply List.filter_eq_self.mpr
    intro e he
    rw [notifyLoop_all_msg mgr outcomes 3 0 e he]
    rfl
  have hfe : List.filter (fun e => e.kind == SendKind.sendMessage)
      (if (notifyLoop mgr outcomes 0 3).1 && optStrTruthy fid
            && ([MsgType.photo, MsgType.document].contains mt) then
        [SendEvent.mk mgr (if mt == MsgType.photo then SendKind.sendPhoto else SendKind.sendDocument)]
      else []) = [] := by
    apply List.filter_eq_nil_iff.mpr
    intro e he
    split at he
    · rcases List.mem_singleton.mp he with rfl
      cases mt <;> simp <;> decide
    · simp at he
  simp only [msgSendCount, notify_manager, List.filter_append, hfilter, hfe,
    List.length_append, List.length_nil, Nat.add_zero]

/-- C2: when every delivery attempt fails, notify_manager returns false and
makes at most 3 attempts; it makes exactly 3 attempts precisely when no
failing response carries error code 403 or 400 (those two codes abort the
retry loop at once); when the first attempt succeeds it returns true after
exactly one attempt. -/
theorem C2_retry_behaviour (mgr : Int) (outcomes : Nat → Option TgResp)
    (mt : MsgType) (fid : Option String) :
    ((∀ n, sendFails (outcomes n)) →
      (notify_manager mgr outcomes mt fid).1 = false ∧
      msgSendCount (notify_manager mgr outcomes mt fid) ≤ 3 ∧
      ((∀ n, n < 3 → ¬ hasErrCode (outcomes n) 403 ∧ ¬ hasErrCode (outcomes n) 400) →
        msgSendCount (notify_manager mgr outcomes mt fid) = 3)) ∧
    (∀ r, outcomes 0 = some r → r.ok = true →
      (notify_manager mgr outcomes mt fid).1 = true ∧
      msgSendCount (notify_manager mgr outcomes mt fid) = 1) := by
  constructor
  · intro hfail
    have hus := notifyLoop_fail_result mgr outcomes hfail 3 0
    refine ⟨by simp [notify_manager, hus], ?_, ?_⟩
    · rw [msgSendCount_of_loop]
      exact notifyLoop_length_le mgr outcomes 3 0
    · intro hnocode
      rw [msgSendCount_of_loop]
      exact notifyLoop_full_length mgr outcomes hfail 3 0 (fun n hn => hnocode n (by omega))
  · intro r h0 hok
    have hloop : notifyLoop mgr outcomes 0 3 = (true, [SendEvent.mk mgr SendKind.sendMessage]) := by
      simp [notifyLoop, h0, hok]
    constructor
    · simp [notify_manager, hloop]
    · rw [msgSendCount_of_loop, hloop]
      rfl

/-- C2 witness: with every attempt timing out (send_message returning None),
notify_manager answers false after exactly 3 attempts. -/
theorem C2_witness :
    (notify_manager 7 (fun _ => none) MsgType.text none).1 = false ∧
    msgSendCount (notify_manager 7 (fun _ => none) MsgType.text none) = 3 := by
  have hfail : ∀ n, sendFails ((fun _ : Nat => (none : Option TgResp)) n) := by
    intro n r hr
    cases hr
  have h := (C2_retry_behaviour 7 (fun _ => none) MsgType.text none).1 hfail
  refine ⟨h.1, h.2.2 ?_⟩
  intro n _
  constructor
  · intro hc
    rcases hc with ⟨r, hr, _⟩
    cases hr
  · intro hc
    rcases hc with ⟨r, hr, _⟩
    cases hr

/-- C2 counterexample: a notification whose every attempt fails with error
code 403 stops after a single attempt, not 3: the loop breaks at once on
code 403, refuting the claim that 3 attempts are always made on repeated
failure. -/
theorem C2_counterexample :
    (∀ n : Nat, sendFails ((fun _ : Nat => some (TgResp.mk false (some 403))) n)) ∧
    notify_manager 1169659218 (fun _ => some (TgResp.mk false (some 403))) MsgType.text none
      = (false, [SendEvent.mk 1169659218 SendKind.sendMessage]) ∧
    msgSendCount
        (notify_manager 1169659218 (fun _ => some (TgResp.mk false (some 403))) MsgType.text none)
      ≠ 3 := by
  refine ⟨?_, by decide, by decide⟩
  intro n r hr
  cases hr
  rfl

/-- C3: the error-code classification is not logging-only: a first failing
response with code 403 or 400 ends the notification with no further
attempts, while failures without these codes are retried to the full 3
attempts. -/
theorem C3_code_dependent_retry (mgr : Int) (outcomes : Nat → Option TgResp)
    (mt : MsgType) (fid : Option String) :
    (∀ r, outcomes 0 = some r → r.ok = false →
      (r.error_code = some 403 ∨ r.error_code = some 400) →
      notify_manager mgr outcomes mt fid = (false, [SendEvent.mk mgr SendKind.sendMessage])) ∧
    ((∀ n, sendFails (outcomes n)) →
      (∀ n, n < 3 → ¬ hasErrCode (outcomes n) 403 ∧ ¬ hasErrCode (outcomes n) 400) →
      msgSendCount (notify_manager mgr outcomes mt fid) = 3) := by
  constructor
  · intro r h0 hok hcode
    have hloop : notifyLoop mgr outcomes 0 3 = (false, [SendEvent.mk mgr SendKind.sendMessage]) := by
      rcases hcode with hc | hc <;> simp [notifyLoop, h0, hok, hc]
    simp [notify_manager, hloop]
  · intro hfail hnocode
    rw [msgSendCount_of_loop]
    exact notifyLoop_full_length mgr outcomes hfail 3 0 (fun n hn => hnocode n (by omega))

/-- C3 witness: a first failure with code 403 ends the notification after the
single attempt. -/
theorem C3_witness :
    notify_manager 5 (fun _ => some (TgResp.mk false (some 403))) MsgType.text none
      = (false, [SendEvent.mk 5 SendKind.sendMessage]) :=
  (C3_code_dependent_retry 5 (fun _ => some (TgResp.mk false (some 403))) MsgType.text none).1
    (TgResp.mk false (some 403)) rfl rfl (Or.inl rfl)

/-- C3 counterexample: two runs whose sends fail identically except for the
error code get different retry behaviour: a 403 failure is given 1 attempt,
a 429 failure 3 attempts, refuting that the classification is logging-only. -/
theorem C3_counterexample :
    msgSendCount
        (notify_manager 1169659218 (fun _ => some (TgResp.mk false (some 403))) MsgType.text none) = 1 ∧
    msgSendCount
        (notify_manager 1169659218 (fun _ => some (TgResp.mk false (some 429))) MsgType.text none) = 3 ∧
    (1 : Nat) ≠ 3 := by decide
/-- C9: for an order id present in the store, passing a non-empty tracking
number to AdminService.update_order_status raises AttributeError, because
the tracking number travels positionally into the google_sheets_service
parameter of OrderManagementService.update_order_status, which calls
is_connected() on it; the tracking number is never stored on any order.
Calls with tracking number None, or with the falsy empty string, complete
and return a boolean. -/
theorem C9_tracking_positional_bug (s : OMSState) (order_id : String) (st : OrderStatus)
    (t : String) (ht : t ≠ "")
    (hmem : s.orders.any (fun p => p.1 == order_id) = true) :
    (admin_update_order_status s order_id st (some t)).2
      = Except.error "AttributeError: str object has no attribute is_connected" ∧
    (admin_update_order_status s order_id st (some t)).1.orders.map
        (fun p => (p.1, p.2.tracking_number))
      = s.orders.map (fun p => (p.1, p.2.tracking_number)) ∧
    (admin_update_order_status s order_id st none).2 = Except.ok true ∧
    (admin_update_order_status s order_id st (some "")).2 = Except.ok true := by
  have hbeq : (t == "") = false := beq_eq_false_iff_ne.mpr ht
  refine ⟨?_, ?_, ?_, ?_⟩
  · simp [admin_update_order_status, oms_update_order_status, hmem, gssTruthy, hbeq,
      gssIsConnected, optStrTruthy]
  · simp only [admin_update_order_status, oms_update_order_status, hmem, Bool.not_true,
      Bool.false_eq_true, if_false, optStrTruthy, gssTruthy, hbeq, Bool.not_false,
      if_true, gssIsConnected]
    rw [List.map_map]
    apply List.map_congr_left
    intro p hp
    by_cases hid : (p.1 == order_id) = true
    · simp only [Function.comp, if_pos hid, setStatus]
    · simp only [Function.comp, if_neg hid]
  · simp [admin_update_order_status, oms_update_order_status, hmem, gssTruthy, optStrTruthy]
  · simp [admin_update_order_status, oms_update_order_status, hmem, gssTruthy, optStrTruthy]

/-- C9 witness: on the seeded mock order, a non-empty tracking number SF999
raises AttributeError while a None tracking number completes with True. -/
theorem C9_witness :
    (admin_update_order_status mock_state "ORD-2024-001" OrderStatus.shipped (some "SF999")).2
      = Except.error "AttributeError: str object has no attribute is_connected" ∧
    (admin_update_order_status mock_state "ORD-2024-001" OrderStatus.shipped none).2
      = Except.ok true := by
  have h := C9_tracking_positional_bug mock_state "ORD-2024-001" OrderStatus.shipped "SF999"
    (by decide) (by decide)
  exact ⟨h.1, h.2.2.1⟩

/-- C9 counterexample: the empty string is a non-None tracking number, the
mock order id is present, and yet the call completes normally with True
instead of raising: the empty string is falsy, so the truthiness guard skips
the is_connected() call. -/
theorem C9_counterexample :
    mock_state.orders.any (fun p => p.1 == "ORD-2024-001") = true ∧
    (admin_update_order_status mock_state "ORD-2024-001" OrderStatus.shipped (some "")).2
      = Except.ok true := by
  exact ⟨by decide, rfl⟩

theorem filterMap_lookup_keys (l : List (String × Order))
    (hnd : (l.map (fun p => p.1)).Nodup) :
    (l.map (fun p => p.1)).filterMap
        (fun k => (l.find? (fun p => p.1 == k)).map (fun p => p.2))
      = l.map (fun p => p.2) := by
  induction l with
  | nil => rfl
  | cons hd tl ih =>
    rw [List.map_cons] at hnd
    have hk : hd.1 ∉ tl.map (fun p => p.1) := (List.nodup_cons.mp hnd).1
    have hndtl : (tl.map (fun p => p.1)).Nodup := (List.nodup_cons.mp hnd).2
    rw [List.map_cons, List.map_cons, List.filterMap_cons]
    have hhd : (((hd :: tl).find? (fun p => p.1 == hd.1)).map (fun p => p.2)) = some hd.2 := by
      rw [List.find?_cons_of_pos _ (by simp)]
      rfl
    rw [hhd]
    have hcongr : ∀ k ∈ tl.map (fun p => p.1),
        (((hd :: tl).find? (fun p => p.1 == k)).map (fun p => p.2))
          = ((tl.find? (fun p => p.1 == k)).map (fun p => p.2)) := by
      intro k hkmem
      have hne : hd.1 ≠ k := fun hEq => hk (hEq ▸ hkmem)
      rw [List.find?_cons_of_neg _ (by simpa using hne)]
    rw [List.filterMap_congr hcongr, ih hndtl]

/-- C8: on a consistent order store, whose user_orders id lists enumerate the
keys of the orders dictionary exactly once each, the admin dashboard reports
the total order count equal to the number of stored orders, a per-status
count equal to the number of stored orders with that status, and a dollar
total equal to the sum of total_amount over all stored orders. -/
theorem C8_dashboard_aggregation (s : OMSState)
    (hnd : (s.orders.map (fun p => p.1)).Nodup)
    (hperm : ((s.user_orders.map (fun p => p.2)).flatten).Perm (s.orders.map (fun p => p.1))) :
    (format_admin_dashboard_stats s).1 = s.orders.length ∧
    (∀ st : OrderStatus, (format_admin_dashboard_stats s).2.1 st
        = (s.orders.filter (fun p => p.2.status == st)).length) ∧
    (format_admin_dashboard_stats s).2.2 = (s.orders.map (fun p => p.2.total_amount)).sum := by
  have hall : (get_all_orders s).Perm (s.orders.map (fun p => p.2)) := by
    unfold get_all_orders
    refine (List.mergeSort_perm _ _).trans ?_
    refine (hperm.filterMap (fun order_id => get_order s order_id)).trans ?_
    have hdef : (fun order_id => get_order s order_id)
        = (fun k => (s.orders.find? (fun p => p.1 == k)).map (fun p => p.2)) := rfl
    rw [hdef, filterMap_lookup_keys s.orders hnd]
  refine ⟨?_, ?_, ?_⟩
  · simp only [format_admin_dashboard_stats]
    rw [hall.length_eq, List.length_map]
  · intro st
    simp only [format_admin_dashboard_stats, status_counts]
    rw [← List.countP_eq_length_filter, ← List.countP_eq_length_filter,
      hall.countP_eq, List.countP_map]
    rfl
  · simp only [format_admin_dashboard_stats]
    rw [(hall.map (fun o => o.total_amount)).sum_eq, List.map_map]
    rfl

/-- C8 witness: on a consistent store with statuses pending, pending and
shipped and amounts 100, 250 and 50, the dashboard reports total 3, pending
2, shipped 1, every other status 0, and dollar total 400. -/
theorem C8_witness :
    (format_admin_dashboard_stats sample_state).1 = 3 ∧
    (format_admin_dashboard_stats sample_state).2.1 OrderStatus.pending = 2 ∧
    (format_admin_dashboard_stats sample_state).2.1 OrderStatus.shipped = 1 ∧
    (format_admin_dashboard_stats sample_state).2.1 OrderStatus.confirmed = 0 ∧
    (format_admin_dashboard_stats sample_state).2.1 OrderStatus.production = 0 ∧
    (format_admin_dashboard_stats sample_state).2.1 OrderStatus.delivered = 0 ∧
    (format_admin_dashboard_stats sample_state).2.1 OrderStatus.cancelled = 0 ∧
    (format_admin_dashboard_stats sample_state).2.2 = 400 := by
  have h := C8_dashboard_aggregation sample_state (by decide) (by decide)
  refine ⟨?_, ?_, ?_, ?_, ?_, ?_, ?_, ?_⟩
  · rw [h.1]
    rfl
  · rw [h.2.1 OrderStatus.pending]
    rfl
  · rw [h.2.1 OrderStatus.shipped]
    rfl
  · rw [h.2.1 OrderStatus.confirmed]
    rfl
  · rw [h.2.1 OrderStatus.production]
    rfl
  · rw [h.2.1 OrderStatus.delivered]
    rfl
  · rw [h.2.1 OrderStatus.cancelled]
    rfl
  · rw [h.2.2]
    show (100 : Rat) + (250 + (50 + 0)) = 400
    norm_num
theorem notify_chat_mgr (mgr : Int) (outcomes : Nat → Option TgResp)
    (mt : MsgType) (fid : Option String) :
    ∀ e ∈ (notify_manager mgr outcomes mt fid).2, e.chat = mgr := by
  intro e he
  simp only [notify_manager, List.mem_append] at he
  rcases he with h | h
  · rw [notifyLoop_all_msg mgr outcomes 3 0 e h]
  · split at h
    · rcases List.mem_singleton.mp h with rfl
      rfl
    · simp at h

theorem filter_chat_notify (mgr c : Int) (hne : c ≠ mgr) (outcomes : Nat → Option TgResp)
    (mt : MsgType) (fid : Option String) (l2 : List SendEvent) :
    List.filter (fun e => e.chat == c) ((notify_manager mgr outcomes mt fid).2 ++ l2)
      = List.filter (fun e => e.chat == c) l2 := by
  rw [List.filter_append]
  have hnil : List.filter (fun e => e.chat == c) (notify_manager mgr outcomes mt fid).2 = [] := by
    apply List.filter_eq_nil_iff.mpr
    intro e he
    rw [notify_chat_mgr mgr outcomes mt fid e he]
    simp only [beq_iff_eq]
    exact fun hEq => hne hEq.symm
  rw [hnil, List.nil_append]

theorem webhookBody_ok_response (mgr : Int) (outcomes : Nat → Option TgResp)
    (msg : RawMessage) (r : List SendEvent × String × Nat)
    (h : webhookBody mgr outcomes msg = Except.ok r) : r.2 = ("OK", 200) := by
  unfold webhookBody at h
  repeat' (first | split at h | dsimp only at h)
  all_goals first
    | exact Except.noConfusion h
    | (injection h with h2; rw [← h2])
/-- C5: the webhook endpoint answers OK with HTTP 200 or Error with HTTP 500,
except that an empty or null JSON body is answered No data with HTTP 400;
every exception raised while handling a message is caught at the top level
and answered Error with HTTP 500. -/
theorem C5_response_codes (mgr : Int) (outcomes : Nat → Option TgResp) (data : Option RawUpdate) :
    ((webhook mgr outcomes data).2 = ("OK", 200) ∨
     (webhook mgr outcomes data).2 = ("Error", 500) ∨
     (data = none ∧ (webhook mgr outcomes data).2 = ("No data", 400))) ∧
    (∀ upd msg e, data = some upd → upd.message = some msg →
      webhookBody mgr outcomes msg = Except.error e →
      webhook mgr outcomes data = ([], ("Error", 500))) := by
  constructor
  · match data with
    | none => exact Or.inr (Or.inr ⟨rfl, rfl⟩)
    | some upd =>
      match hm : upd.message with
      | none => exact Or.inl (by simp [webhook, hm])
      | some msg =>
        cases hb : webhookBody mgr outcomes msg with
        | ok r =>
          left
          simp only [webhook, hm, hb]
          exact webhookBody_ok_response mgr outcomes msg r hb
        | error e =>
          right
          left
          simp [webhook, hm, hb]
  · intro upd msg e hd hm hb
    subst hd
    simp [webhook, hm, hb]

/-- C5 witness: a message without a chat key raises KeyError in the body and
the endpoint answers Error with 500. -/
theorem C5_witness :
    webhook 7 (fun _ => none)
        (some (RawUpdate.mk (some (RawMessage.mk none none (some "hello") none none))))
      = ([], ("Error", 500)) :=
  (C5_response_codes 7 (fun _ => none)
      (some (RawUpdate.mk (some (RawMessage.mk none none (some "hello") none none))))).2
    (RawUpdate.mk (some (RawMessage.mk none none (some "hello") none none)))
    (RawMessage.mk none none (some "hello") none none)
    "KeyError: chat" rfl rfl rfl

/-- C5 counterexample: a null JSON body is answered No data with HTTP 400,
which is neither OK with 200 nor Error with 500, refuting that the response
is always one of those two. -/
theorem C5_counterexample :
    webhook 7 (fun _ => none) none = ([], ("No data", 400)) ∧
    ("No data", (400 : Nat)) ≠ ("OK", 200) ∧
    ("No data", (400 : Nat)) ≠ ("Error", 500) :=
  ⟨rfl, by decide, by decide⟩
/-- C4: provided the originating chat is not the manager chat, an update
containing a message and processed without an exception gets exactly one
reply to the originating chat when the message is /start, a photo, a
document, or a non-command text (whatever the classifier decides), and no
reply at all when the message is a slash command other than /start or
carries none of the handled payloads. -/
theorem C4_single_reply (mgr c : Int) (outcomes : Nat → Option TgResp) (msg : RawMessage)
    (hchat : msg.chat = some (RawChat.mk (some c)))
    (hmgr : c ≠ mgr)
    (hok : (webhook mgr outcomes (some (RawUpdate.mk (some msg)))).2 = ("OK", 200)) :
    replyCountTo mgr outcomes (some (RawUpdate.mk (some msg))) c
      = (if repliedBranch msg then 1 else 0) := by
  have hkc : keyErr msg.chat "chat" = Except.ok (RawChat.mk (some c)) := by
    rw [hchat]
    rfl
  have hki : keyErr (RawChat.mk (some c)).id "id" = Except.ok c := rfl
  by_cases hstart : (msg.text == some "/start") = true
  · have hbody : webhookBody mgr outcomes msg
        = Except.ok ([SendEvent.mk c SendKind.sendMessage], ("OK", 200)) := by
      simp only [webhookBody, hkc, hki, hstart, if_true]
    simp [replyCountTo, webhook, hbody, repliedBranch, hstart]
  · cases hphoto : msg.photo with
    | some photos =>
      cases photos with
      | nil =>
        exfalso
        have hbody : webhookBody mgr outcomes msg
            = Except.error "ValueError: max() arg is an empty sequence" := by
          simp only [webhookBody, hkc, hki, hstart, hphoto]
          simp
        simp [webhook, hbody] at hok
      | cons p ps =>
        have hbody : webhookBody mgr outcomes msg
            = Except.ok ((notify_manager mgr outcomes MsgType.photo
                (some (largestPhoto p ps).file_id)).2
                ++ [SendEvent.mk c SendKind.sendMessage], ("OK", 200)) := by
          simp only [webhookBody, hkc, hki, hstart, hphoto]
          simp
        simp only [replyCountTo, webhook, hbody]
        rw [filter_chat_notify mgr c hmgr]
        simp [repliedBranch, hphoto]
    | none =>
      cases hdoc : msg.document with
      | some doc =>
        cases hfid : doc.file_id with
        | none =>
          exfalso
          have hbody : webhookBody mgr outcomes msg = Except.error "KeyError: file_id" := by
            simp only [webhookBody, hkc, hki, hstart, hphoto, hdoc]
            simp [keyErr, hfid]
          simp [webhook, hbody] at hok
        | some fid =>
          by_cases hsupp :
              (get_file_type_info (doc.file_name.getD "Без названия")).1 ∈ supported_types
          · have hbody : webhookBody mgr outcomes msg
                = Except.ok ((notify_manager mgr outcomes MsgType.document (some fid)).2
                    ++ [SendEvent.mk c SendKind.sendMessage], ("OK", 200)) := by
              simp only [webhookBody, hkc, hki, hstart, hphoto, hdoc]
              simp [keyErr, hfid, hsupp]
            simp only [replyCountTo, webhook, hbody]
            rw [filter_chat_notify mgr c hmgr]
            simp [repliedBranch, hdoc, hstart, hphoto]
          · have hbody : webhookBody mgr outcomes msg
                = Except.ok ([SendEvent.mk c SendKind.sendMessage], ("OK", 200)) := by
              simp only [webhookBody, hkc, hki, hstart, hphoto, hdoc]
              simp [keyErr, hfid, hsupp]
            simp [replyCountTo, webhook, hbody, repliedBranch, hdoc, hstart, hphoto]
      | none =>
        cases htext : msg.text with
        | none =>
          have hbody : webhookBody mgr outcomes msg = Except.ok ([], ("OK", 200)) := by
            simp only [webhookBody, hkc, hki, hstart, hphoto, hdoc, htext]
            simp [htext]
          simp [replyCountTo, webhook, hbody, repliedBranch, hstart, hphoto, hdoc, htext]
        | some t =>
          have hts : t ≠ "/start" := by
            intro hEq
            apply hstart
            rw [htext, hEq]
            simp
          by_cases hcmd : pyStartsWith t "/" = true
          · have hbody : webhookBody mgr outcomes msg = Except.ok ([], ("OK", 200)) := by
              simp only [webhookBody, hkc, hki, hstart, hphoto, hdoc, htext]
              simp [hcmd, hts]
            simp [replyCountTo, webhook, hbody, repliedBranch, hstart, hphoto, hdoc, htext, hcmd,
              hts]
          · by_cases horder : is_real_order t = true
            · have hbody : webhookBody mgr outcomes msg
                  = Except.ok ((notify_manager mgr outcomes MsgType.text none).2
                      ++ [SendEvent.mk c SendKind.sendMessage], ("OK", 200)) := by
                simp only [webhookBody, hkc, hki, hstart, hphoto, hdoc, htext]
                simp [hcmd, horder, hts]
              simp only [replyCountTo, webhook, hbody]
              rw [filter_chat_notify mgr c hmgr]
              simp [repliedBranch, hstart, hphoto, hdoc, htext, hcmd]
            · have hbody : webhookBody mgr outcomes msg
                  = Except.ok ([SendEvent.mk c SendKind.sendMessage], ("OK", 200)) := by
                simp only [webhookBody, hkc, hki, hstart, hphoto, hdoc, htext]
                simp [hcmd, horder, hts]
              simp [replyCountTo, webhook, hbody, repliedBranch, hstart, hphoto, hdoc, htext, hcmd]
/-- C4 witness: the end-to-end text request Хочу купить часы from chat 1 gets
exactly one reply to chat 1. -/
theorem C4_witness :
    replyCountTo 1169659218 (fun _ => some (TgResp.mk true none))
        (some (RawUpdate.mk (some (RawMessage.mk (some (RawChat.mk (some 1)))
          (some (RawUser.mk (some 1) (some "Ann") none))
          (some "Хочу купить часы") none none)))) 1 = 1 := by
  have h := C4_single_reply 1169659218 1 (fun _ => some (TgResp.mk true none))
    (RawMessage.mk (some (RawChat.mk (some 1)))
      (some (RawUser.mk (some 1) (some "Ann") none))
      (some "Хочу купить часы") none none)
    rfl (by decide) (by decide)
  rw [h]
  decide

/-- C4 counterexample: an update whose message is the command /help is
processed without an exception and answered OK, yet the handler sends no
reply at all to the originating chat 42, refuting that every processed
update gets exactly one reply. -/
theorem C4_counterexample :
    (webhook 1169659218 (fun _ => some (TgResp.mk true none))
        (some (RawUpdate.mk (some (RawMessage.mk (some (RawChat.mk (some 42)))
          none (some "/help") none none))))).2 = ("OK", 200) ∧
    replyCountTo 1169659218 (fun _ => some (TgResp.mk true none))
        (some (RawUpdate.mk (some (RawMessage.mk (some (RawChat.mk (some 42)))
          none (some "/help") none none)))) 42 = 0 := by
  exact ⟨by decide, by decide⟩
